import Mathlib

/-!
Verification of `src/main.rs` of the csdk_build_parameters_extractor tool.

The program is embedded shallowly: strings are lists of characters, the
string primitives the Rust code uses are translated one by one, the
parse-and-emit token loop becomes a fold that threads the two artifact
files and reports panics through `Except`, and `main` as a whole becomes a
function from the run's ambient inputs (entry working directory,
environment, the orchestrator's captured output, the reference files) to
the observable outcome at process exit.
-/

/-- Rust `char::is_whitespace`, the Unicode White_Space property, as used
by `str::split_whitespace`. -/
def rustWS (c : Char) : Bool :=
  c == ' ' || c == '\t' || c == '\n' || c == '\x0B' || c == '\x0C' || c == '\r' ||
  c.toNat == 0x85 || c.toNat == 0xA0 || c.toNat == 0x1680 ||
  (0x2000 ≤ c.toNat && c.toNat ≤ 0x200A) ||
  c.toNat == 0x2028 || c.toNat == 0x2029 || c.toNat == 0x202F ||
  c.toNat == 0x205F || c.toNat == 0x3000

/-- Accumulator form of `str::split_whitespace`: `acc` holds the current
token reversed. -/
def splitWsAux : List Char → List Char → List (List Char)
  | [], acc => if acc.isEmpty then [] else [acc.reverse]
  | c :: rest, acc =>
    if rustWS c then
      if acc.isEmpty then splitWsAux rest [] else acc.reverse :: splitWsAux rest []
    else splitWsAux rest (c :: acc)

/-- Rust `str::split_whitespace`: split on runs of whitespace, yielding no
empty tokens. -/
def splitWs (s : List Char) : List (List Char) := splitWsAux s []

/-- Accumulator form of `str::split('=')`. -/
def splitEqAux : List Char → List Char → List (List Char)
  | [], acc => [acc.reverse]
  | c :: rest, acc =>
    if c == '=' then acc.reverse :: splitEqAux rest []
    else splitEqAux rest (c :: acc)

/-- Rust `str::split('=')`: split on every `=`; the empty string yields one
empty part, n separators yield n+1 parts. -/
def splitEq (s : List Char) : List (List Char) := splitEqAux s []

/-- Rust `str::trim_start_matches("-D")`: the prefix is removed
repeatedly, as often as it occurs. -/
def trimStartD : List Char → List Char
  | '-' :: 'D' :: rest => trimStartD rest
  | s => s

/-- Rust `str::starts_with` for a literal pattern. -/
def startsWithL (p s : List Char) : Bool := p.isPrefixOf s

/-- Rust `str::contains` for a literal substring pattern. -/
def containsSub (hay needle : List Char) : Bool :=
  match hay with
  | [] => needle.isEmpty
  | c :: t => needle.isPrefixOf (c :: t) || containsSub t needle

/-- Strip one trailing carriage return; `str::lines` strips a `\r`
standing immediately before each `\n`. -/
def rstripCR (l : List Char) : List Char :=
  match l.reverse with
  | '\r' :: rest => rest.reverse
  | _ => l

/-- Accumulator form of `str::lines`; a final `\n` produces no trailing
empty line. -/
def linesAux : List Char → List Char → List (List Char)
  | [], acc => [acc.reverse]
  | c :: rest, acc =>
    if c == '\n' then
      rstripCR acc.reverse :: (if rest.isEmpty then [] else linesAux rest [])
    else linesAux rest (c :: acc)

/-- Rust `str::lines`: the empty string yields no lines. -/
def linesOf (s : List Char) : List (List Char) :=
  if s.isEmpty then [] else linesAux s []

/-- The two artifact files while the token loop runs.  `defines` is the
raw content of the `.defines` file, because that file receives partial
`write!` fragments; `cflags` is the list of lines of the `.cflags` file,
because every write to it is one whole `writeln!` line. -/
structure EmitState where
  defines : List Char
  cflags : List (List Char)
deriving Repr, DecidableEq

/-- The fragment written by `write!(define_file, "#define ")`. -/
def hashDefine : List Char := "#define ".data

/-- The compile-line marker of the line loop. -/
def clangNeedle : List Char := "clang -c".data

/-- Freshly created (truncated) artifact files. -/
def emptyEmit : EmitState := ⟨[], []⟩

/-- One token of the compile line, `main.rs` lines 157-180.  An
`Except.error` is the panic on a malformed define: it carries the file
state at the moment of the panic (the `#define ` fragment is already
written) and the panic message. -/
def procWord (st : EmitState) (w : List Char) :
    Except (EmitState × List Char) EmitState :=
  if startsWithL "-D".data w then
    let v := splitEq (trimStartD w)
    let d1 := st.defines ++ hashDefine
    match v with
    | [a] => .ok { st with defines := d1 ++ a ++ ['\n'] }
    | [a, b] => .ok { st with defines := d1 ++ a ++ [' '] ++ b ++ ['\n'] }
    | _ => .error ({ st with defines := d1 }, "Unexpected format for define: ".data ++ w)
  else if startsWithL "-I".data w then .ok st
  else if startsWithL "-".data w then .ok { st with cflags := st.cflags ++ [w] }
  else .ok st

/-- The `for_each` over the tokens of the retained line; a panic stops the
iteration at once. -/
def procWords (st : EmitState) : List (List Char) →
    Except (EmitState × List Char) EmitState
  | [] => .ok st
  | w :: ws =>
    match procWord st w with
    | .ok st2 => procWords st2 ws
    | .error e => .error e

/-- The line loop, `main.rs` lines 154-184: the first line containing
`clang -c` is tokenised and processed and the loop then breaks; other
lines are skipped. -/
def procLines (st : EmitState) : List (List Char) →
    Except (EmitState × List Char) EmitState
  | [] => .ok st
  | l :: ls =>
    if containsSub l clangNeedle then procWords st (splitWs l)
    else procLines st ls

/-- The parse-and-emit stage on the lossily decoded `make` output; both
artifact files have just been created empty. -/
def parseEmit (s : List Char) : Except (EmitState × List Char) EmitState :=
  procLines emptyEmit (linesOf s)

/-- On-disk content of the cflags file: each emitted line followed by a
line feed. -/
def joinLines (ls : List (List Char)) : List Char := (ls.map (· ++ ['\n'])).flatten

/-- The cflags lines of an emit result, whether the loop finished or
panicked. -/
def cflagsOf : Except (EmitState × List Char) EmitState → List (List Char)
  | .ok st => st.cflags
  | .error (st, _) => st.cflags

instance exceptDecEq {ε α : Type} [DecidableEq ε] [DecidableEq α] :
    DecidableEq (Except ε α) := fun a b =>
  match a, b with
  | .ok x, .ok y =>
    if h : x = y then isTrue (congrArg Except.ok h)
    else isFalse (fun hc => h (Except.ok.inj hc))
  | .error x, .error y =>
    if h : x = y then isTrue (congrArg Except.error h)
    else isFalse (fun hc => h (Except.error.inj hc))
  | .ok _, .error _ => isFalse (fun hc => Except.noConfusion hc)
  | .error _, .ok _ => isFalse (fun hc => Except.noConfusion hc)

/-- Process environment as an association list; a later `set_var` shadows
earlier entries. -/
def envVar (e : List (String × String)) (k : String) : Option String :=
  match e.find? (fun p => p.1 == k) with
  | some p => some p.2
  | none => none

/-- Rust `env::set_var`. -/
def setVar (e : List (String × String)) (k v : String) : List (String × String) :=
  (k, v) :: e

/-- The arms of `match args.device.as_str()` in `main` (lines 115-137):
the target identifier and the SDK source variable of each device. -/
def deviceTable (d : String) : Option (String × String) :=
  if d = "nanox" then some ("nanox", "NANOX_SDK")
  else if d = "nanosplus" then some ("nanos2", "NANOSP_SDK")
  else if d = "stax" then some ("stax", "STAX_SDK")
  else if d = "flex" then some ("flex", "FLEX_SDK")
  else if d = "apex_p" then some ("apex_p", "APEX_P_SDK")
  else none

/-- Panic message of the fallback arm of the device match (line 136). -/
def unsupportedDeviceMsg : String :=
  "Unsupported device type. Supported types are: nanox, nanosplus, stax, flex."

/-- Panic message of `Result::unwrap` applied to `env::var` returning
`Err(VarError::NotPresent)` (lines 118, 122, 126, 130, 134). -/
def sdkUnsetMsg : String := "called `Result::unwrap()` on an `Err` value: NotPresent"

/-- The two required command-line options. -/
structure Args where
  app_path : String
  device : String
deriving Repr, DecidableEq

/-- Ambient inputs of one run: what the operating system supplies to
`main`.  `chdirOk` is whether `set_current_dir(app_path)` succeeds;
`makeOut` is the lossily decoded stdout of `make --trace --dry-run` when
the spawn succeeds, `none` on a spawn failure (the child's exit status is
never inspected, so only the captured text matters); `refDefines` and
`refCflags` are the committed reference files when they exist;
`fsDefines0` and `fsCflags0` are artifact contents already on disk
before the run. -/
structure Sys where
  entryCwd : String
  env0 : List (String × String)
  chdirOk : Bool
  makeOut : Option String
  refDefines : Option String
  refCflags : Option String
  fsDefines0 : Option String
  fsCflags0 : Option String
deriving Repr, DecidableEq

/-- Observable state at process exit: whether the exit code is zero, the
panic message if the run panicked, the working directory, the
environment, the artifact files on disk, and the diagnostic lines. -/
structure Outcome where
  exitOk : Bool
  panicMsg : Option String
  cwdAtExit : String
  envAtExit : List (String × String)
  fsDefines : Option String
  fsCflags : Option String
  stderr : List String
deriving Repr, DecidableEq

/-- Reference-diff stage, `main.rs` lines 186-204: both artifacts were
written and the working directory is already restored; a missing
reference file panics, a mismatch only prints a diagnostic. -/
def stageDiff (args : Args) (sys : Sys) (env2 : List (String × String))
    (st : EmitState) : Outcome :=
  let dC := String.mk st.defines
  let cC := String.mk (joinLines st.cflags)
  match sys.refDefines with
  | none =>
    { exitOk := false, panicMsg := some "Failed to read reference defines file",
      cwdAtExit := sys.entryCwd, envAtExit := env2,
      fsDefines := some dC, fsCflags := some cC, stderr := [] }
  | some rd =>
    match sys.refCflags with
    | none =>
      { exitOk := false, panicMsg := some "Failed to read reference cflags file",
        cwdAtExit := sys.entryCwd, envAtExit := env2,
        fsDefines := some dC, fsCflags := some cC, stderr := [] }
    | some rc =>
      let e1 := if dC = rd then []
        else ["Current defines file does not match reference for target " ++ args.device]
      let e2 := if cC = rc then []
        else ["Current cflags file does not match reference for target " ++ args.device]
      { exitOk := true, panicMsg := none, cwdAtExit := sys.entryCwd, envAtExit := env2,
        fsDefines := some dC, fsCflags := some cC, stderr := e1 ++ e2 }

/-- File creation and parse-and-emit, `main.rs` lines 148-184; the
working directory was restored on line 146, before the files are
created, so a parse panic leaves the restored directory and the
partially written artifacts. -/
def stageEmit (args : Args) (sys : Sys) (env2 : List (String × String))
    (sout : String) : Outcome :=
  match parseEmit sout.data with
  | .error (st, msg) =>
    { exitOk := false, panicMsg := some (String.mk msg),
      cwdAtExit := sys.entryCwd, envAtExit := env2,
      fsDefines := some (String.mk st.defines),
      fsCflags := some (String.mk (joinLines st.cflags)), stderr := [] }
  | .ok st => stageDiff args sys env2 st

/-- Trace capture, `main.rs` lines 139-146: a spawn failure panics while
the working directory is still the application path, before the restore
on line 146 and before either artifact file is created. -/
def stageCapture (args : Args) (sys : Sys) (env2 : List (String × String)) : Outcome :=
  match sys.makeOut with
  | none =>
    { exitOk := false, panicMsg := some "Failed to execute command",
      cwdAtExit := args.app_path, envAtExit := env2,
      fsDefines := sys.fsDefines0, fsCflags := sys.fsCflags0, stderr := [] }
  | some sout => stageEmit args sys env2 sout

/-- The whole of `main`, `main.rs` lines 108-205, as a function of the
run's ambient inputs.  Each arm of the device match first sets `TARGET`
and then unwraps the SDK source variable, so on the unwrap panic `TARGET`
is already set; every panic before line 146 exits with the working
directory still the application path. -/
def runMain (args : Args) (sys : Sys) : Outcome :=
  if !sys.chdirOk then
    { exitOk := false, panicMsg := some "Failed to set current directory",
      cwdAtExit := sys.entryCwd, envAtExit := sys.env0,
      fsDefines := sys.fsDefines0, fsCflags := sys.fsCflags0, stderr := [] }
  else
    match deviceTable args.device with
    | none =>
      { exitOk := false, panicMsg := some unsupportedDeviceMsg,
        cwdAtExit := args.app_path, envAtExit := sys.env0,
        fsDefines := sys.fsDefines0, fsCflags := sys.fsCflags0, stderr := [] }
    | some (target, sdkVar) =>
      let env1 := setVar sys.env0 "TARGET" target
      match envVar env1 sdkVar with
      | none =>
        { exitOk := false, panicMsg := some sdkUnsetMsg,
          cwdAtExit := args.app_path, envAtExit := env1,
          fsDefines := sys.fsDefines0, fsCflags := sys.fsCflags0, stderr := [] }
      | some sdkPath => stageCapture args sys (setVar env1 "BOLOS_SDK" sdkPath)

/-- The line loop is determined by the first line containing the marker:
`find?` locates it, later lines are never processed. -/
theorem procLines_eq_find (ls : List (List Char)) (st : EmitState) :
    procLines st ls =
      match ls.find? (fun l => containsSub l clangNeedle) with
      | none => Except.ok st
      | some l => procWords st (splitWs l) := by
  induction ls with
  | nil => rfl
  | cons l ls ih =>
    cases h : containsSub l clangNeedle with
    | false => simp [procLines, List.find?, h, ih]
    | true => simp [procLines, List.find?, h]

/-- Looking up the key just set. -/
theorem envVar_setVar_self (e : List (String × String)) (k v : String) :
    envVar (setVar e k v) k = some v := by
  simp [envVar, setVar, List.find?]

/-- Looking up another key skips the entry just set. -/
theorem envVar_setVar_ne (e : List (String × String)) (k k2 v : String)
    (h : k2 ≠ k) : envVar (setVar e k v) k2 = envVar e k2 := by
  have hb : (k == k2) = false := by
    simp [Ne.symm h]
  simp [envVar, setVar, List.find?, hb]

/-- Every branch of the emit and diff stages restores the entry working
directory: these stages run after line 146 of `main.rs`. -/
theorem stageEmit_cwdAtExit (args : Args) (sys : Sys)
    (env2 : List (String × String)) (sout : String) :
    (stageEmit args sys env2 sout).cwdAtExit = sys.entryCwd := by
  cases hp : parseEmit sout.data with
  | error e => obtain ⟨st, msg⟩ := e; simp [stageEmit, hp]
  | ok st =>
    cases hr : sys.refDefines with
    | none => simp [stageEmit, stageDiff, hp, hr]
    | some rd =>
      cases hc : sys.refCflags with
      | none => simp [stageEmit, stageDiff, hp, hr, hc]
      | some rc => simp [stageEmit, stageDiff, hp, hr, hc]

/-- Every branch of the emit and diff stages leaves the environment the
capture stage received. -/
theorem stageCapture_envAtExit (args : Args) (sys : Sys)
    (env2 : List (String × String)) :
    (stageCapture args sys env2).envAtExit = env2 := by
  cases hm : sys.makeOut with
  | none => simp [stageCapture, hm]
  | some sout =>
    cases hp : parseEmit sout.data with
    | error e => obtain ⟨st, msg⟩ := e; simp [stageCapture, stageEmit, hm, hp]
    | ok st =>
      cases hr : sys.refDefines with
      | none => simp [stageCapture, stageEmit, stageDiff, hm, hp, hr]
      | some rd =>
        cases hc : sys.refCflags with
        | none => simp [stageCapture, stageEmit, stageDiff, hm, hp, hr, hc]
        | some rc => simp [stageCapture, stageEmit, stageDiff, hm, hp, hr, hc]

/-- C1 is refuted: with the working directory successfully changed to the
application path `/app` and the unknown device `nanos`, the process exits
by panic with its working directory still `/app`, not the entry
directory `/home`. -/
theorem c1_cwd_counterexample :
    (runMain ⟨"/app", "nanos"⟩
        ⟨"/home", [], true, some "", some "", some "", none, none⟩).cwdAtExit = "/app" ∧
    (runMain ⟨"/app", "nanos"⟩
        ⟨"/home", [], true, some "", some "", some "", none, none⟩).panicMsg =
      some unsupportedDeviceMsg ∧
    ("/app" : String) ≠ "/home" := by
  decide

/-- C1 amended: on every run where the directory change succeeded, the
device is known, its SDK source variable is set and the orchestrator
spawned, the working directory at exit equals the entry directory, on
every such exit path (parse panic, missing-reference panic, or success);
runs that panic between the change and the restore on line 146 (unknown
device, unset SDK variable, spawn failure) exit with the working
directory still the application path. -/
theorem c1_cwd_restored (args : Args) (sys : Sys) (t v p s : String)
    (h1 : sys.chdirOk = true) (h2 : deviceTable args.device = some (t, v))
    (h3 : envVar (setVar sys.env0 "TARGET" t) v = some p)
    (h4 : sys.makeOut = some s) :
    (runMain args sys).cwdAtExit = sys.entryCwd := by
  have hc : (stageCapture args sys
      (setVar (setVar sys.env0 "TARGET" t) "BOLOS_SDK" p)).cwdAtExit = sys.entryCwd := by
    simp [stageCapture, h4, stageEmit_cwdAtExit]
  simp [runMain, h1, h2, h3, hc]

/-- C1 witness: the restoration at a concrete successful run. -/
theorem c1_cwd_restored_witness :
    (runMain ⟨"/app", "stax"⟩
      ⟨"/home", [("STAX_SDK", "/sdk")], true, some "", some "", some "", none, none⟩).cwdAtExit =
      "/home" :=
  c1_cwd_restored _ _ "stax" "STAX_SDK" "/sdk" "" (by decide) (by decide) (by decide) (by decide)

/-- The raw-mode end-to-end scenario line of the spec. -/
def c2Line : String :=
  "clang -c -DHAVE_AES -DAPPVERSION=\"1.0\" -I/sdk/include -Wall -o foo.o foo.c"

/-- C2 is refuted: on the scenario line the emitted pair of artifacts is
not the claimed one, because the cflags artifact does not consist of the
single line `-Wall`. -/
theorem c2_counterexample :
    parseEmit c2Line.data ≠
      Except.ok ⟨"#define HAVE_AES\n#define APPVERSION \"1.0\"\n".data,
        ["-Wall".data]⟩ := by
  decide

/-- C2 amended: the defines artifact is exactly the two claimed lines,
but the cflags artifact is exactly the three lines `-c`, `-Wall`, `-o` in
that order — raw mode also emits the `-c` and `-o` tokens, which begin
with `-` and are neither `-D` nor `-I` tokens. -/
theorem c2_artifacts :
    parseEmit c2Line.data =
      Except.ok ⟨"#define HAVE_AES\n#define APPVERSION \"1.0\"\n".data,
        ["-c".data, "-Wall".data, "-o".data]⟩ := by
  decide

/-- The definition-emission remainder as the spec words it: the leading
`-D` stripped once; for comparison with the code's repeated strip. -/
def specStripLeadD (w : List Char) : List Char :=
  match w with
  | '-' :: 'D' :: rest => rest
  | s => s

/-- C3 is refuted on tokens whose remainder itself begins with `-D`: for
`-D-DFOO` the code emits `#define FOO`, not the `#define -DFOO` line that
stripping a single leading `-D` prescribes. -/
theorem c3_counterexample :
    procWord emptyEmit "-D-DFOO".data = Except.ok ⟨"#define FOO\n".data, []⟩ ∧
    hashDefine ++ specStripLeadD "-D-DFOO".data ++ ['\n'] ≠ "#define FOO\n".data := by
  decide

/-- C3 amended: for every token beginning with `-D`, every leading `-D`
occurrence is stripped and the remainder is split on `=`: one part
appends `#define <name>` plus newline, two parts append
`#define <name> <value>` plus newline (so `-DFOO=` yields `#define FOO `
with a trailing space), and any other number of parts is the fatal
panic, with the `#define ` fragment already written. -/
theorem c3_define_emission (st : EmitState) (w : List Char)
    (h : startsWithL "-D".data w = true) :
    procWord st w =
      match splitEq (trimStartD w) with
      | [a] => Except.ok ⟨st.defines ++ hashDefine ++ a ++ ['\n'], st.cflags⟩
      | [a, b] => Except.ok ⟨st.defines ++ hashDefine ++ a ++ [' '] ++ b ++ ['\n'], st.cflags⟩
      | _ => Except.error (⟨st.defines ++ hashDefine, st.cflags⟩,
          "Unexpected format for define: ".data ++ w) := by
  simp only [procWord, h, if_true]

/-- C3 witness: the amended emission rule evaluated at the token
`-DFOO=`, which yields `#define FOO ` with a trailing space. -/
theorem c3_define_emission_witness :
    procWord emptyEmit "-DFOO=".data = Except.ok ⟨"#define FOO \n".data, []⟩ :=
  (c3_define_emission emptyEmit ("-DFOO=".data) (by decide)).trans (by decide)

/-- A concrete ambient state exercising the CLI-validation paths. -/
def sysDemo : Sys := ⟨"/home", [], true, some "", some "", some "", none, none⟩

/-- C4: an unknown device exits non-zero, but its diagnostic names only
four of the five accepted tags: the device match accepts `apex_p`, yet
`apex_p` does not occur in the panic message. -/
theorem c4_unknown_device :
    (runMain ⟨"/app", "nanos"⟩ sysDemo).exitOk = false ∧
    (runMain ⟨"/app", "nanos"⟩ sysDemo).panicMsg = some unsupportedDeviceMsg ∧
    containsSub unsupportedDeviceMsg.data "nanox".data = true ∧
    containsSub unsupportedDeviceMsg.data "nanosplus".data = true ∧
    containsSub unsupportedDeviceMsg.data "stax".data = true ∧
    containsSub unsupportedDeviceMsg.data "flex".data = true ∧
    containsSub unsupportedDeviceMsg.data "apex_p".data = false ∧
    deviceTable "apex_p" = some ("apex_p", "APEX_P_SDK") := by
  decide

/-- C5 is refuted in two of its three parts: `--device stax` with
`STAX_SDK` unset exits non-zero, but the diagnostic is the generic
unwrap panic, which does not contain `STAX_SDK`, and the working
directory is not restored: at exit it is still the application path. -/
theorem c5_counterexample :
    (runMain ⟨"/app", "stax"⟩ sysDemo).exitOk = false ∧
    (runMain ⟨"/app", "stax"⟩ sysDemo).panicMsg = some sdkUnsetMsg ∧
    containsSub sdkUnsetMsg.data "STAX_SDK".data = false ∧
    (runMain ⟨"/app", "stax"⟩ sysDemo).cwdAtExit = "/app" ∧
    ("/app" : String) ≠ "/home" := by
  decide

/-- C5 amended: for every valid device whose SDK source variable is unset
in the environment, the run exits non-zero by the unwrap panic; the
diagnostic is the generic unwrap message, which names no variable, and
the working directory stays the application path rather than being
restored. -/
theorem c5_missing_sdk (args : Args) (sys : Sys) (t v : String)
    (h1 : sys.chdirOk = true) (h2 : deviceTable args.device = some (t, v))
    (h3 : envVar (setVar sys.env0 "TARGET" t) v = none) :
    (runMain args sys).exitOk = false ∧
    (runMain args sys).panicMsg = some sdkUnsetMsg ∧
    (runMain args sys).cwdAtExit = args.app_path := by
  simp [runMain, h1, h2, h3]

/-- C5 witness: the amended behaviour at `--device stax` with `STAX_SDK`
unset. -/
theorem c5_missing_sdk_witness :
    (runMain ⟨"/app", "stax"⟩ sysDemo).exitOk = false ∧
    (runMain ⟨"/app", "stax"⟩ sysDemo).panicMsg = some sdkUnsetMsg ∧
    (runMain ⟨"/app", "stax"⟩ sysDemo).cwdAtExit = "/app" :=
  c5_missing_sdk ⟨"/app", "stax"⟩ sysDemo "stax" "STAX_SDK" (by decide) (by decide) (by decide)

/-- C6: the line loop's outcome is determined by the first line containing
`clang -c` — `find?` locates it and the lines after it are never
processed — and when no such line exists both artifact files are created
and left empty and, with the reference files present, the run exits
zero without a panic. -/
theorem c6_first_line_only (args : Args) (sys : Sys) (t v p s rd rc : String)
    (h1 : sys.chdirOk = true) (h2 : deviceTable args.device = some (t, v))
    (h3 : envVar (setVar sys.env0 "TARGET" t) v = some p)
    (h4 : sys.makeOut = some s)
    (h5 : (linesOf s.data).find? (fun l => containsSub l clangNeedle) = none)
    (h6 : sys.refDefines = some rd) (h7 : sys.refCflags = some rc) :
    (∀ ls st, procLines st ls =
      match ls.find? (fun l => containsSub l clangNeedle) with
      | none => Except.ok st
      | some l => procWords st (splitWs l)) ∧
    (runMain args sys).fsDefines = some "" ∧
    (runMain args sys).fsCflags = some "" ∧
    (runMain args sys).exitOk = true ∧
    (runMain args sys).panicMsg = none := by
  have hparse : parseEmit s.data = Except.ok emptyEmit := by
    rw [parseEmit, procLines_eq_find, h5]
  have hrun : runMain args sys = stageDiff args sys
      (setVar (setVar sys.env0 "TARGET" t) "BOLOS_SDK" p) emptyEmit := by
    simp [runMain, h1, h2, h3, stageCapture, h4, stageEmit, hparse]
  refine ⟨fun ls st => procLines_eq_find ls st, ?_, ?_, ?_, ?_⟩ <;>
    simp [hrun, stageDiff, h6, h7, joinLines, emptyEmit]

/-- C6 witness: a trace with no compile line, on a run with both
reference files present. -/
theorem c6_first_line_only_witness :
    (∀ ls st, procLines st ls =
      match ls.find? (fun l => containsSub l clangNeedle) with
      | none => Except.ok st
      | some l => procWords st (splitWs l)) ∧
    (runMain ⟨"/app", "stax"⟩
      ⟨"/home", [("STAX_SDK", "/sdk")], true, some "gcc -c foo.c", some "", some "",
        none, none⟩).fsDefines = some "" ∧
    (runMain ⟨"/app", "stax"⟩
      ⟨"/home", [("STAX_SDK", "/sdk")], true, some "gcc -c foo.c", some "", some "",
        none, none⟩).fsCflags = some "" ∧
    (runMain ⟨"/app", "stax"⟩
      ⟨"/home", [("STAX_SDK", "/sdk")], true, some "gcc -c foo.c", some "", some "",
        none, none⟩).exitOk = true ∧
    (runMain ⟨"/app", "stax"⟩
      ⟨"/home", [("STAX_SDK", "/sdk")], true, some "gcc -c foo.c", some "", some "",
        none, none⟩).panicMsg = none :=
  c6_first_line_only ⟨"/app", "stax"⟩
    ⟨"/home", [("STAX_SDK", "/sdk")], true, some "gcc -c foo.c", some "", some "",
      none, none⟩
    "stax" "STAX_SDK" "/sdk" "gcc -c foo.c" "" ""
    (by decide) (by decide) (by decide) (by decide) (by decide) (by decide) (by decide)

/-- C7: for every valid device, at exit `TARGET` holds the mapped target
identifier and `BOLOS_SDK` holds the value of the mapped SDK source
variable, and the mapping is exactly the claimed five-row table. -/
theorem c7_env_mapping (args : Args) (sys : Sys) (t v p : String)
    (h1 : sys.chdirOk = true) (h2 : deviceTable args.device = some (t, v))
    (h3 : envVar sys.env0 v = some p) :
    envVar (runMain args sys).envAtExit "TARGET" = some t ∧
    envVar (runMain args sys).envAtExit "BOLOS_SDK" = some p ∧
    deviceTable "nanox" = some ("nanox", "NANOX_SDK") ∧
    deviceTable "nanosplus" = some ("nanos2", "NANOSP_SDK") ∧
    deviceTable "stax" = some ("stax", "STAX_SDK") ∧
    deviceTable "flex" = some ("flex", "FLEX_SDK") ∧
    deviceTable "apex_p" = some ("apex_p", "APEX_P_SDK") := by
  have hv : v ≠ "TARGET" := by
    unfold deviceTable at h2
    split_ifs at h2 <;> simp at h2 <;> obtain ⟨rfl, rfl⟩ := h2 <;> decide
  have h3a : envVar (setVar sys.env0 "TARGET" t) v = some p := by
    rw [envVar_setVar_ne sys.env0 "TARGET" v t hv, h3]
  have hrun : (runMain args sys).envAtExit =
      setVar (setVar sys.env0 "TARGET" t) "BOLOS_SDK" p := by
    simp [runMain, h1, h2, h3a, stageCapture_envAtExit]
  refine ⟨?_, ?_, by decide, by decide, by decide, by decide, by decide⟩
  · rw [hrun, envVar_setVar_ne _ "BOLOS_SDK" "TARGET" p (by decide), envVar_setVar_self]
  · rw [hrun, envVar_setVar_self]

/-- C7 witness: the nanosplus row, whose target identifier `nanos2`
differs from the device tag. -/
theorem c7_env_mapping_witness :
    envVar (runMain ⟨"/app", "nanosplus"⟩
      ⟨"/home", [("NANOSP_SDK", "/sdk2")], true, some "", some "", some "",
        none, none⟩).envAtExit "TARGET" = some "nanos2" ∧
    envVar (runMain ⟨"/app", "nanosplus"⟩
      ⟨"/home", [("NANOSP_SDK", "/sdk2")], true, some "", some "", some "",
        none, none⟩).envAtExit "BOLOS_SDK" = some "/sdk2" ∧
    deviceTable "nanox" = some ("nanox", "NANOX_SDK") ∧
    deviceTable "nanosplus" = some ("nanos2", "NANOSP_SDK") ∧
    deviceTable "stax" = some ("stax", "STAX_SDK") ∧
    deviceTable "flex" = some ("flex", "FLEX_SDK") ∧
    deviceTable "apex_p" = some ("apex_p", "APEX_P_SDK") :=
  c7_env_mapping ⟨"/app", "nanosplus"⟩
    ⟨"/home", [("NANOSP_SDK", "/sdk2")], true, some "", some "", some "", none, none⟩
    "nanos2" "NANOSP_SDK" "/sdk2" (by decide) (by decide) (by decide)

/-- What a single token may do to the cflags file: leave it alone, or
append the token itself, which then begins with `-` and not with `-I`. -/
theorem procWord_cflags (st : EmitState) (w : List Char) :
    cflagsOf (procWord st w) = st.cflags ∨
    (cflagsOf (procWord st w) = st.cflags ++ [w] ∧
      startsWithL "-".data w = true ∧ startsWithL "-I".data w = false) := by
  by_cases hD : startsWithL "-D".data w = true
  · left
    simp only [procWord, hD, if_true]
    rcases splitEq (trimStartD w) with _ | ⟨a, _ | ⟨b, _ | ⟨c, l⟩⟩⟩ <;> simp [cflagsOf]
  · by_cases hI : startsWithL "-I".data w = true
    · left
      simp [procWord, hD, hI, cflagsOf]
    · by_cases hdash : startsWithL "-".data w = true
      · right
        simp [procWord, hD, hI, hdash, cflagsOf, Bool.not_eq_true]
      · left
        simp [procWord, hD, hI, hdash, cflagsOf]

/-- The cflags invariant is preserved across the whole token loop, also
when the loop panics. -/
theorem procWords_cflags_inv (ws : List (List Char)) (st : EmitState)
    (hst : ∀ l ∈ st.cflags,
      startsWithL "-".data l = true ∧ startsWithL "-I".data l = false) :
    ∀ l ∈ cflagsOf (procWords st ws),
      startsWithL "-".data l = true ∧ startsWithL "-I".data l = false := by
  induction ws generalizing st with
  | nil => simpa [procWords, cflagsOf] using hst
  | cons w ws ih =>
    have hstep := procWord_cflags st w
    cases hw : procWord st w with
    | error e =>
      obtain ⟨st2, m⟩ := e
      rw [hw] at hstep
      intro l hl
      simp only [procWords, hw, cflagsOf] at hl
      rcases hstep with hsame | ⟨happ, hwP⟩
      · exact hst l (by simpa [cflagsOf, hsame.symm] using hl)
      · simp only [cflagsOf] at happ
        rw [happ] at hl
        rcases List.mem_append.mp hl with hmem | hmem
        · exact hst l hmem
        · rcases List.mem_singleton.mp hmem with rfl
          exact hwP
    | ok st2 =>
      rw [hw] at hstep
      have hst2 : ∀ l ∈ st2.cflags,
          startsWithL "-".data l = true ∧ startsWithL "-I".data l = false := by
        intro l hl
        rcases hstep with hsame | ⟨happ, hwP⟩
        · exact hst l (by simpa [cflagsOf, hsame.symm] using hl)
        · simp only [cflagsOf] at happ
          rw [happ] at hl
          rcases List.mem_append.mp hl with hmem | hmem
          · exact hst l hmem
          · rcases List.mem_singleton.mp hmem with rfl
            exact hwP
      intro l hl
      have := ih st2 hst2
      exact this l (by simpa [procWords, hw] using hl)

/-- C8: every line of the cflags artifact begins with `-`, and no token
beginning with `-I` equals any of its lines: the `-I` arm discards, and
only tokens that fell past the `-D` and `-I` tests are written. -/
theorem c8_cflags_lines (s : List Char) (l : List Char)
    (h : l ∈ cflagsOf (parseEmit s)) :
    startsWithL "-".data l = true ∧
    ∀ w : List Char, startsWithL "-I".data w = true → l ≠ w := by
  have hinv : startsWithL "-".data l = true ∧ startsWithL "-I".data l = false := by
    rw [parseEmit, procLines_eq_find] at h
    rcases hf : (linesOf s).find? (fun l => containsSub l clangNeedle) with _ | line
    · rw [hf] at h
      simp [cflagsOf, emptyEmit] at h
    · rw [hf] at h
      exact procWords_cflags_inv (splitWs line) emptyEmit
        (by intro l hl; simp [emptyEmit] at hl) l h
  refine ⟨hinv.1, fun w hw hlw => ?_⟩
  rw [hlw] at hinv
  rw [hinv.2] at hw
  exact Bool.false_ne_true hw

/-- C8 witness: the line `-Wall` of a concrete artifact. -/
theorem c8_cflags_lines_witness :
    startsWithL "-".data "-Wall".data = true ∧
    ∀ w : List Char, startsWithL "-I".data w = true → "-Wall".data ≠ w :=
  c8_cflags_lines "clang -c -Wall -I/inc foo.c".data "-Wall".data (by decide)

/-- C9: the `-D` prefix is stripped repeatedly, not once: stripping
passes any further `-D` prefix, and the token `-D-DFOO` emits
`#define FOO`, not `#define -DFOO`. -/
theorem c9_repeated_strip :
    (∀ rest : List Char, trimStartD ('-' :: 'D' :: rest) = trimStartD rest) ∧
    trimStartD "-D-DFOO".data = "FOO".data ∧
    procWord emptyEmit "-D-DFOO".data = Except.ok ⟨"#define FOO\n".data, []⟩ ∧
    "#define FOO\n".data ≠ "#define -DFOO\n".data :=
  ⟨fun rest => rfl, by decide, by decide, by decide⟩

/-- The token loop over a concatenation runs the first part and, when it
did not panic, continues with the second from the reached state. -/
theorem procWords_append (pre ws : List (List Char)) (st : EmitState) :
    procWords st (pre ++ ws) =
      match procWords st pre with
      | .ok st2 => procWords st2 ws
      | .error e => .error e := by
  induction pre generalizing st with
  | nil => simp [procWords]
  | cons w pre ih =>
    cases hw : procWord st w with
    | ok st2 => simp [procWords, hw, ih]
    | error e => simp [procWords, hw]

/-- A token beginning with `-D` whose stripped remainder splits into more
than two parts panics, with the `#define ` fragment already written. -/
theorem procWord_malformed (st : EmitState) (bad : List Char)
    (hD : startsWithL "-D".data bad = true)
    (hlen : 2 < (splitEq (trimStartD bad)).length) :
    procWord st bad = Except.error (⟨st.defines ++ hashDefine, st.cflags⟩,
      "Unexpected format for define: ".data ++ bad) := by
  simp only [procWord, hD, if_true]
  rcases hv : splitEq (trimStartD bad) with _ | ⟨a, _ | ⟨b, _ | ⟨c, l⟩⟩⟩ <;>
    rw [hv] at hlen <;> simp at hlen

/-- C10: once capture succeeds the artifacts are freshly created — the
outcome does not depend on the artifact contents on disk before the run —
and a malformed define token panics leaving the defines file holding the
entries of all tokens before it followed by the dangling `#define `
fragment, on disk, with a non-zero exit. -/
theorem c10_partial_emission (args : Args) (sys : Sys) (t v p s : String)
    (pre rest : List (List Char)) (bad : List Char) (st : EmitState)
    (h1 : sys.chdirOk = true) (h2 : deviceTable args.device = some (t, v))
    (h3 : envVar (setVar sys.env0 "TARGET" t) v = some p)
    (h4 : sys.makeOut = some s)
    (hpre : procWords emptyEmit pre = Except.ok st)
    (hbad : startsWithL "-D".data bad = true)
    (hlen : 2 < (splitEq (trimStartD bad)).length) :
    (∀ d0 c0 : Option String,
      runMain args { sys with fsDefines0 := d0, fsCflags0 := c0 } = runMain args sys) ∧
    procWords emptyEmit (pre ++ bad :: rest) =
      Except.error (⟨st.defines ++ hashDefine, st.cflags⟩,
        "Unexpected format for define: ".data ++ bad) ∧
    (parseEmit s.data = Except.error (⟨st.defines ++ hashDefine, st.cflags⟩,
        "Unexpected format for define: ".data ++ bad) →
      (runMain args sys).fsDefines = some (String.mk (st.defines ++ hashDefine)) ∧
      (runMain args sys).exitOk = false) := by
  refine ⟨?_, ?_, ?_⟩
  · intro d0 c0
    simp [runMain, h1, h2, h3, stageCapture, h4, stageEmit, stageDiff]
  · rw [procWords_append, hpre]
    simp [procWords, procWord_malformed st bad hbad hlen]
  · intro hp
    constructor <;> simp [runMain, h1, h2, h3, stageCapture, h4, stageEmit, hp]

/-- A run whose captured trace holds a malformed define token. -/
def sysC10 : Sys :=
  ⟨"/home", [("STAX_SDK", "/sdk")], true, some "clang -c -DA -DB=1=2 -DC",
    some "", some "", none, none⟩

/-- C10 witness: a trace whose second define token is malformed; the
defines file keeps `#define A` and the dangling fragment. -/
theorem c10_partial_emission_witness :
    (∀ d0 c0 : Option String,
      runMain ⟨"/app", "stax"⟩ { sysC10 with fsDefines0 := d0, fsCflags0 := c0 } =
        runMain ⟨"/app", "stax"⟩ sysC10) ∧
    procWords emptyEmit
        (["clang".data, "-c".data, "-DA".data] ++ "-DB=1=2".data :: ["-DC".data]) =
      Except.error (⟨"#define A\n".data ++ hashDefine, ["-c".data]⟩,
        "Unexpected format for define: ".data ++ "-DB=1=2".data) ∧
    (parseEmit "clang -c -DA -DB=1=2 -DC".data =
        Except.error (⟨"#define A\n".data ++ hashDefine, ["-c".data]⟩,
          "Unexpected format for define: ".data ++ "-DB=1=2".data) →
      (runMain ⟨"/app", "stax"⟩ sysC10).fsDefines =
        some (String.mk ("#define A\n".data ++ hashDefine)) ∧
      (runMain ⟨"/app", "stax"⟩ sysC10).exitOk = false) :=
  c10_partial_emission ⟨"/app", "stax"⟩ sysC10 "stax" "STAX_SDK" "/sdk"
    "clang -c -DA -DB=1=2 -DC"
    ["clang".data, "-c".data, "-DA".data] ["-DC".data] "-DB=1=2".data
    ⟨"#define A\n".data, ["-c".data]⟩
    (by decide) (by decide) (by decide) (by decide) (by decide) (by decide) (by decide)
